import Mathlib

/-!
Verification of `src/gerarQrCode.js`.

A shallow embedding of `src/gerarQrCode.js`: the payload formatter
`formatarValorQR` with its PIX helper `formatarStringPix`, the entry point
`gerarQRCode` as a state transformer over the part of the page it touches, the timer
discipline of `debounceQrCode` over a clock in milliseconds, and the resize callback of
`configurarResponsividade`.
-/

namespace GerarQrCode

/-! ## JavaScript values -/

/-- A JavaScript number that is a safe integer: a sign and a magnitude of at most
`2^53 - 1`. Every such number is a double, and the runtime prints it as its exact decimal
digits. A negative sign on the magnitude 0 is the number `-0`. -/
structure InteiroSeguro where
  negativo : Bool
  magnitude : Nat
  seguro : magnitude ≤ 9007199254740991

/-- A numeral written for a number denotes the safe integer of that magnitude (every numeral
in this development is below the bound, at which the magnitude is capped). -/
instance (n : Nat) : OfNat InteiroSeguro n :=
  ⟨⟨false, min n 9007199254740991, Nat.min_le_right _ _⟩⟩

/-- The JavaScript values that the module is given as `valor`, `tipo`, `elementoId`, `opcoes`
and as the configuration argument itself. A record is a plain object with data properties,
written as the list of its property assignments in order, as in an object literal: a later
assignment of a key replaces an earlier one.
Numbers are the safe integers and `NaN`. Numbers of larger magnitude, fractions, infinities,
functions, symbols and arrays are not represented. -/
inductive JSVal where
  | undefined
  | null
  | bool (b : Bool)
  | num (n : InteiroSeguro)
  | nan
  | str (s : String)
  | obj (props : List (String × JSVal))

/-- The data properties of a plain object. -/
abbrev Props := List (String × JSVal)

/-- What a `throw` carries: a `TypeError` raised by the runtime, or an `Error` built by the
code with its message. -/
inductive JSError where
  | typeError
  | error (msg : String)
  deriving DecidableEq, Repr

/-- The `typeof` operator. -/
def typeof : JSVal → String
  | .undefined => "undefined"
  | .null => "object"
  | .bool _ => "boolean"
  | .num _ => "number"
  | .nan => "number"
  | .str _ => "string"
  | .obj _ => "object"

/-- Truthiness (`ToBoolean`): `undefined`, `null`, `false`, `0`, `NaN` and `''` are falsy. -/
def truthy : JSVal → Bool
  | .undefined => false
  | .null => false
  | .bool b => b
  | .num n => n.magnitude != 0
  | .nan => false
  | .str s => s != ""
  | .obj _ => true

/-- Own-property lookup in a record: `none` when the record does not carry the key. -/
def buscar : Props → String → Option JSVal
  | [], _ => none
  | (k, v) :: resto, chave =>
    match buscar resto chave with
    | some w => some w
    | none => if k = chave then some v else none

/-- Reading `registro.chave` on a plain object: the property's value, `undefined` if absent. -/
def lerCampo (ps : Props) (chave : String) : JSVal :=
  match buscar ps chave with
  | some v => v
  | none => .undefined

/-- Reading a named field `v.chave` of any value, for the field names this module reads
(none of which a string, number or boolean wrapper defines): `TypeError` on `undefined`
and `null`, the property on a record, `undefined` on the other primitives. -/
def lerPropriedade (v : JSVal) (chave : String) : Except JSError JSVal :=
  match v with
  | .undefined => .error .typeError
  | .null => .error .typeError
  | .obj ps => .ok (lerCampo ps chave)
  | _ => .ok .undefined

/-- The string form of a safe integer (`Number::toString`): its decimal digits, after a
minus sign when it is negative; `-0` prints as `0`. -/
def numeral (n : InteiroSeguro) : String :=
  if n.negativo && n.magnitude != 0 then "-" ++ Nat.repr n.magnitude else Nat.repr n.magnitude

/-- String coercion (`ToString`), as done by a template literal and by `String(v)`.
A plain object renders as `[object Object]`; one that carries an own data property
`toString` has nothing callable to convert it with, and the coercion throws. -/
def paraString : JSVal → Except JSError String
  | .undefined => .ok "undefined"
  | .null => .ok "null"
  | .bool true => .ok "true"
  | .bool false => .ok "false"
  | .num n => .ok (numeral n)
  | .nan => .ok "NaN"
  | .str s => .ok s
  | .obj ps =>
    match buscar ps "toString" with
    | some _ => .error .typeError
    | none => .ok "[object Object]"

/-- The receiver of a `String.prototype` method call such as `valor.startsWith(..)`:
only a string has the method, every other value makes the call throw a `TypeError`. -/
def receptorString : JSVal → Except JSError String
  | .str s => .ok s
  | _ => .error .typeError

/-- Lower-casing of one character (the letters `A`..`Z`). -/
def minuscula (c : Char) : Char :=
  if 65 ≤ c.toNat ∧ c.toNat ≤ 90 then Char.ofNat (c.toNat + 32) else c

/-- The method `tipo.toLowerCase()`: `TypeError` unless `tipo` is a string. Only the letters
`A`..`Z` are changed. On every string this selects the same arm of `formatarValorQR` as the
full Unicode lower-casing does, since no other character lower-cases to exactly a letter of
the type names matched there. -/
def toLowerCase (tipo : JSVal) : Except JSError String := do
  let s ← receptorString tipo
  return String.mk (s.data.map minuscula)

/-- The test `s.startsWith(prefixo)`. -/
def startsWith (s prefixo : String) : Bool :=
  prefixo.data.isPrefixOf s.data

/-- Whether `agulha` occurs in `palheiro` starting at its head or later. -/
def ocorreEm (agulha : List Char) : List Char → Bool
  | [] => agulha.isEmpty
  | c :: resto => agulha.isPrefixOf (c :: resto) || ocorreEm agulha resto

/-- The test `s.includes(trecho)`. -/
def includes (s trecho : String) : Bool :=
  ocorreEm trecho.data s.data

/-- Whether a character is matched by the pattern `\D`: anything but `0`..`9`. -/
def naoDigito (c : Char) : Bool :=
  !(48 ≤ c.toNat && c.toNat ≤ 57)

/-- The scan done by `replace(/\D/g, '')`: every match of `\D` is replaced by nothing. -/
def removerNaoDigitos : List Char → List Char
  | [] => []
  | c :: resto => if naoDigito c then removerNaoDigitos resto else c :: removerNaoDigitos resto

/-- The call `s.replace(/\D/g, '')`. -/
def replaceNaoDigitos (s : String) : String :=
  String.mk (removerNaoDigitos s.data)

/-! ## Payload formatting -/

/-- The function `formatarStringPix(dadosPix)` of the source. The destructuring of `chave`,
`valor`, `beneficiario`, `cidade` and `identificador` before the last `return` reads fields
that nothing uses, and is left out. -/
def formatarStringPix (dadosPix : JSVal) : Except JSError JSVal := do
  if typeof dadosPix = "string" then
    return dadosPix
  let dadosEmv ← lerPropriedade dadosPix "dadosEmv"
  let payload ← lerPropriedade dadosPix "payload"
  if truthy dadosEmv || truthy payload then
    return (if truthy dadosEmv then dadosEmv else payload)
  return .str ""

/-- The source of a destructuring `typeof valor === 'object' ? valor : \x7b\x7d`: the value
itself when it is a record, a `TypeError` when it is `null`, the empty record otherwise. -/
def fonteDesestruturada (valor : JSVal) : Except JSError Props :=
  if typeof valor = "object" then
    match valor with
    | .obj ps => .ok ps
    | _ => .error .typeError
  else .ok []

/-- A destructured field with a default: the default replaces `undefined` only. -/
def comPadrao (v padrao : JSVal) : JSVal :=
  match v with
  | .undefined => padrao
  | outro => outro

/-- The function `formatarValorQR(valor, tipo)` of the source. The result is whatever the
selected arm returns, which the `pix` arm does not always make a string. -/
def formatarValorQR (valor tipo : JSVal) : Except JSError JSVal := do
  let t ← toLowerCase tipo
  if t = "pix" then
    if typeof valor = "string" then
      let s ← receptorString valor
      if startsWith s "00020126" || includes s "BR.GOV.BCB.PIX" then
        return valor
    if typeof valor = "object" then
      formatarStringPix valor
    else
      return valor
  else if t = "url" then
    let s ← receptorString valor
    if startsWith s "http" then return valor
    else return .str ("https://" ++ s)
  else if t = "email" then
    let s ← paraString valor
    return .str ("mailto:" ++ s)
  else if t = "tel" then
    let s ← receptorString valor
    return .str ("tel:" ++ replaceNaoDigitos s)
  else if t = "sms" then
    let s ← receptorString valor
    return .str ("sms:" ++ replaceNaoDigitos s)
  else if t = "wifi" then
    let fonte ← fonteDesestruturada valor
    let nomeRede := lerCampo fonte "nomeRede"
    let senha := lerCampo fonte "senha"
    let criptografia := comPadrao (lerCampo fonte "criptografia") (.str "WPA")
    let c ← paraString criptografia
    let n ← paraString nomeRede
    let p ← paraString senha
    return .str ("WIFI:T:" ++ c ++ ";S:" ++ n ++ ";P:" ++ p ++ ";;")
  else if t = "contato" then
    let fonte ← fonteDesestruturada valor
    let nome := lerCampo fonte "nome"
    let telefone := lerCampo fonte "telefone"
    let email := lerCampo fonte "email"
    let n ← paraString nome
    let tl ← paraString telefone
    let e ← paraString email
    return .str ("BEGIN:VCARD\nVERSION:3.0\nN:" ++ n ++ "\nTEL:" ++ tl ++ "\nEMAIL:" ++ e
      ++ "\nEND:VCARD")
  else
    let s ← paraString valor
    return .str s

/-! ## The page -/

/-- A `canvas` element, with the attributes this module writes: its class and the displayed
width and height of its style (the empty string while unset). -/
structure Canvas where
  className : String
  styleWidth : String
  styleHeight : String
  deriving DecidableEq, Repr

/-- The element made by `document.createElement('canvas')`. -/
def createCanvas : Canvas :=
  ⟨"", "", ""⟩

/-- A node inside a container: a `canvas`, or anything else (named by its tag). -/
inductive No where
  | canvas (c : Canvas)
  | outro (tag : String)
  deriving DecidableEq, Repr

/-- The content of a container: its descendant nodes in document order. -/
abbrev Conteudo := List No

/-- The call `elemento.querySelector('canvas')`: the first `canvas` in document order. -/
def querySelectorCanvas : Conteudo → Option Canvas
  | [] => none
  | .canvas c :: _ => some c
  | .outro _ :: resto => querySelectorCanvas resto

/-- A write to an attribute of the canvas found by `querySelector('canvas')`. -/
def alterarCanvas (f : Canvas → Canvas) : Conteudo → Conteudo
  | [] => []
  | .canvas c :: resto => .canvas (f c) :: resto
  | .outro t :: resto => .outro t :: alterarCanvas f resto

/-- The elements of the document that carry an id, in document order, each with its content.
Containers are taken to be disjoint: none lies inside another. -/
abbrev Documento := List (String × Conteudo)

/-- The call `document.getElementById(id)`: the first element with that id, if any. -/
def getElementById : Documento → String → Option Conteudo
  | [], _ => none
  | (k, c) :: resto, id => if k = id then some c else getElementById resto id

/-- A change to the content of the element that `getElementById` finds. -/
def alterarElemento (f : Conteudo → Conteudo) : Documento → String → Documento
  | [], _ => []
  | (k, c) :: resto, id =>
    if k = id then (k, f c) :: resto else (k, c) :: alterarElemento f resto id

/-- One call of the render capability `QRCode.toCanvas(canvas, valorFormatado, opcoesQR)`:
the container whose canvas was given, the payload and the options. -/
structure Chamada where
  elemento : String
  valorFormatado : JSVal
  opcoesQR : Props

/-- The part of the environment the module reads and writes: the document, the resize
observations attached so far (one entry per `ResizeObserver`, naming the element it observes),
the calls made to the render capability, and what was written with `console.error`. -/
structure Mundo where
  documento : Documento
  observados : List String
  chamadas : List Chamada
  console : List JSError

/-- The render capability `QRCode.toCanvas`, an external collaborator: given the payload
and the options its promise is fulfilled or rejected. What it draws is not modelled. -/
abbrev ToCanvas := JSVal → Props → Except JSError Unit

/-- The settled state of the promise an `async` function returns. -/
inductive Promessa where
  | resolvida (v : JSVal)
  | rejeitada (e : JSError)

/-! ## Style options -/

/-- The object literal `configPadrao` of the source. -/
def configPadrao : Props :=
  [("width", .num 256), ("height", .num 256), ("margin", .num 1),
   ("color", .obj [("dark", .str "#000000"), ("light", .str "#FFFFFF")]),
   ("errorCorrectionLevel", .str "H"), ("version", .undefined), ("maskPattern", .undefined)]

/-- The four assignments made to `configPadrao` when the type is `pix`. -/
def atribuicoesPix : Props :=
  [("errorCorrectionLevel", .str "Q"), ("margin", .num 0), ("width", .num 350),
   ("height", .num 350)]

/-- The own enumerable properties that an object spread copies from a value: those of a
record; the characters of a string under their indices (by code point); none otherwise. -/
def propriedadesProprias : JSVal → Props
  | .obj ps => ps
  | .str s => s.data.enum.map (fun ic => (Nat.repr ic.1, JSVal.str (String.singleton ic.2)))
  | _ => []

/-- The spread `\x7b ...base, ...fonte \x7d`: the assignments of `base`, then those of
`fonte`. -/
def espalhar (base : Props) (fonte : JSVal) : Props :=
  base ++ propriedadesProprias fonte

/-- Lines 30 to 53 of the source: `configPadrao`, the PIX assignments when
`tipo.toLowerCase()` is `pix`, then the caller's options spread on top. -/
def montarOpcoesQR (tipo opcoes : JSVal) : Except JSError Props := do
  let t ← toLowerCase tipo
  let config := if t = "pix" then configPadrao ++ atribuicoesPix else configPadrao
  return espalhar config opcoes

/-! ## The entry point -/

/-- The body of the `try` block of `gerarQRCode`, run on the destructured parameters: the
error thrown, if any, and the environment as the body left it. -/
def corpoTry (toCanvas : ToCanvas) (elementoId valor tipo opcoes : JSVal) (m : Mundo) :
    Except JSError Unit × Mundo :=
  if !truthy elementoId || !truthy valor || !truthy tipo then
    (.error (.error "Parâmetros obrigatórios não fornecidos"), m)
  else
    match paraString elementoId with
    | .error e => (.error e, m)
    | .ok id =>
      match getElementById m.documento id with
      | none => (.error (.error ("Elemento com ID \"" ++ id ++ "\" não encontrado")), m)
      | some conteudo =>
        match montarOpcoesQR tipo opcoes with
        | .error e => (.error e, m)
        | .ok opcoesQR =>
          match formatarValorQR valor tipo with
          | .error e => (.error e, m)
          | .ok valorFormatado =>
            let m1 : Mundo :=
              match querySelectorCanvas conteudo with
              | some _ => m
              | none =>
                { m with documento :=
                    alterarElemento (fun _ => [No.canvas createCanvas]) m.documento id }
            let m2 : Mundo :=
              { m1 with chamadas := m1.chamadas ++ [⟨id, valorFormatado, opcoesQR⟩] }
            match toCanvas valorFormatado opcoesQR with
            | .error e => (.error e, m2)
            | .ok _ =>
              match toLowerCase tipo with
              | .error e => (.error e, m2)
              | .ok t =>
                let marcar : Conteudo → Conteudo :=
                  alterarCanvas (fun c => { c with className := "qrcode-" ++ t })
                let m3 : Mundo :=
                  { m2 with documento := alterarElemento marcar m2.documento id }
                (.ok (), { m3 with observados := m3.observados ++ [id] })

/-- The parameter pattern of `gerarQRCode`: the four fields read off the argument, where an
`opcoes` that is `undefined` takes the default `\x7b\x7d`. -/
def desestruturar (config : JSVal) : Except JSError (JSVal × JSVal × JSVal × JSVal) := do
  let elementoId ← lerPropriedade config "elementoId"
  let valor ← lerPropriedade config "valor"
  let tipo ← lerPropriedade config "tipo"
  let opcoes ← lerPropriedade config "opcoes"
  return (elementoId, valor, tipo, comPadrao opcoes (.obj []))

/-- The function `gerarQRCode(config)` of the source: the settled promise and the environment
afterwards. A failure to bind the parameters happens outside the `try` and rejects the
promise; an error thrown inside it is logged and answered with `false`. -/
def gerarQRCode (toCanvas : ToCanvas) (config : JSVal) (m : Mundo) : Promessa × Mundo :=
  match desestruturar config with
  | .error e => (.rejeitada e, m)
  | .ok (elementoId, valor, tipo, opcoes) =>
    match corpoTry toCanvas elementoId valor tipo opcoes m with
    | (.ok _, m1) => (.resolvida (.bool true), m1)
    | (.error erro, m1) => (.resolvida (.bool false), { m1 with console := m1.console ++ [erro] })

/-! ## The specification's tables -/

/-- The top-level fields of the style options. -/
def camposDeEstilo : List String :=
  ["width", "height", "margin", "color", "errorCorrectionLevel", "version", "maskPattern"]

/-- The fixed defaults as the specification lists them, by top-level field: the two colours
together are the one field `color`; `version` and `maskPattern` are unset. -/
def especPadrao : String → JSVal
  | "width" => .num 256
  | "height" => .num 256
  | "margin" => .num 1
  | "color" => .obj [("dark", .str "#000000"), ("light", .str "#FFFFFF")]
  | "errorCorrectionLevel" => .str "H"
  | _ => .undefined

/-- The PIX override as the specification lists it: the fields it sets, `none` elsewhere. -/
def especPix : String → Option JSVal
  | "errorCorrectionLevel" => some (.str "Q")
  | "margin" => some (.num 0)
  | "width" => some (.num 350)
  | "height" => some (.num 350)
  | _ => none

/-- The three layers of the specification for one field: the caller's value if the caller
set the field, else the PIX override if the type is `pix` and the override has the field,
else the fixed default. -/
def especCamadas (pix : Bool) (chamador : Props) (k : String) : JSVal :=
  match buscar chamador k with
  | some v => v
  | none =>
    match (if pix then especPix k else none) with
    | some v => v
    | none => especPadrao k

/-- The text a template shows for a field: the given placeholder when the record does not
carry the field (or carries it as `undefined`), else the string form of the field's value. -/
def textoDoCampo (ps : Props) (k padrao : String) : String :=
  match buscar ps k with
  | none => padrao
  | some .undefined => padrao
  | some x =>
    match paraString x with
    | .ok s => s
    | .error _ => padrao

/-! ## Repeated rendering -/

/-- The number of `canvas` nodes in a container. -/
def contarCanvas : Conteudo → Nat
  | [] => 0
  | .canvas _ :: resto => contarCanvas resto + 1
  | .outro _ :: resto => contarCanvas resto

/-- Successive calls of `gerarQRCode`, each on the environment the previous one left. -/
def renderizacoes (toCanvas : ToCanvas) : List JSVal → Mundo → Mundo
  | [], m => m
  | config :: resto, m => renderizacoes toCanvas resto (gerarQRCode toCanvas config m).2

/-! ## Debounce -/

/-- A timer set with `setTimeout`: its id, the time (in ms) at which it is due, and the
arguments that its callback `depois` has captured. -/
structure Temporizador (α : Type) where
  id : Nat
  vence : Nat
  args : α

/-- The state around one function made by `debounceQrCode(funcao, espera)`: the clock in
milliseconds, the id the next timer gets, the timers still pending in the order they were
set, the variable `timeout` of the closure (`none` while `undefined`), and the calls of
`funcao` made so far, each with the time at which it was made. -/
structure Debounce (α : Type) where
  agora : Nat
  proximoId : Nat
  pendentes : List (Temporizador α)
  timeout : Option Nat
  executadas : List (Nat × α)

/-- The state when `debounceQrCode` returns: nothing pending, `timeout` undefined. -/
def debounceQrCode (α : Type) : Debounce α :=
  ⟨0, 1, [], none, []⟩

/-- The call `clearTimeout(h)`: the timer with that id, if pending, is dropped. -/
def clearTimeout {α : Type} (h : Option Nat) (s : Debounce α) : Debounce α :=
  { s with pendentes := s.pendentes.filter (fun tm => some tm.id != h) }

/-- The call `setTimeout(depois, espera)` with the arguments `depois` has captured: a new
timer due `espera` ms from now; its id is returned. -/
def setTimeout {α : Type} (args : α) (espera : Nat) (s : Debounce α) : Nat × Debounce α :=
  (s.proximoId,
    { s with proximoId := s.proximoId + 1,
             pendentes := s.pendentes ++ [⟨s.proximoId, s.agora + espera, args⟩] })

/-- The callback `depois` of the source, run when its timer fires: it clears `timeout` and
calls `funcao(...args)`, which is recorded with the current time. -/
def depois {α : Type} (args : α) (s : Debounce α) : Debounce α :=
  let s1 := clearTimeout s.timeout s
  { s1 with executadas := s1.executadas ++ [(s1.agora, args)] }

/-- The function `executarFuncao(...args)` that `debounceQrCode` returns: it clears the
pending timer and sets a new one, whose id it keeps in `timeout`. -/
def executarFuncao {α : Type} (espera : Nat) (args : α) (s : Debounce α) : Debounce α :=
  let s1 := clearTimeout s.timeout s
  let r := setTimeout args espera s1
  { r.2 with timeout := some r.1 }

/-- The timer that is due first; among timers due at the same time, the one set first. -/
def maisCedo {α : Type} : List (Temporizador α) → Option (Temporizador α)
  | [] => none
  | tm :: resto =>
    match maisCedo resto with
    | none => some tm
    | some u => if tm.vence ≤ u.vence then some tm else some u

/-- The timer loop of the environment up to time `t`: as long as a pending timer is due by
`t`, the earliest one is taken off the pending list and its callback runs at its due time.
The first argument bounds the number of timers fired. -/
def dispararAte {α : Type} (t : Nat) : Nat → Debounce α → Debounce α
  | 0, s => s
  | n + 1, s =>
    match maisCedo (s.pendentes.filter (fun tm => tm.vence ≤ t)) with
    | none => s
    | some tm =>
      let s1 : Debounce α := { s with agora := max s.agora tm.vence }
      let s2 : Debounce α := { s1 with pendentes := s1.pendentes.filter (fun u => u.id != tm.id) }
      dispararAte t n (depois tm.args s2)

/-- The passage of time up to `t`: the timers due by then fire (a callback sets no timer, so
there are at most as many firings as timers pending), and the clock reads `t`. -/
def avancarAte {α : Type} (t : Nat) (s : Debounce α) : Debounce α :=
  let s1 := dispararAte t s.pendentes.length s
  { s1 with agora := max s1.agora t }

/-- A series of invocations of the debounced function, each given with its time and its
arguments: time passes up to each invocation, which then runs. -/
def rajada {α : Type} (espera : Nat) : List (Nat × α) → Debounce α → Debounce α
  | [], s => s
  | (t, args) :: resto, s => rajada espera resto (executarFuncao espera args (avancarAte t s))

/-! ## Resize handler -/

/-- One entry of a `ResizeObserver` notification: the observed element (named by its id) and
the width and height of its content rectangle, in whole pixels. -/
structure Entrada where
  target : String
  width : Nat
  height : Nat

/-- The two style writes of the handler: the displayed width and height become
`tamanho` followed by `px`. -/
def ajustar (tamanho : Nat) (c : Canvas) : Canvas :=
  { c with styleWidth := Nat.repr tamanho ++ "px", styleHeight := Nat.repr tamanho ++ "px" }

/-- The callback given to `debounceQrCode` in `configurarResponsividade`: for each entry in
turn, if the target holds a canvas, its style is set to the smaller side of the content
rectangle; an entry whose target holds none is passed over. The document holds the attached
elements only, so an entry whose target is not in it is passed over as well. -/
def aoRedimensionar : List Entrada → Documento → Documento
  | [], d => d
  | entry :: resto, d =>
    match getElementById d entry.target with
    | none => aoRedimensionar resto d
    | some conteudo =>
      match querySelectorCanvas conteudo with
      | none => aoRedimensionar resto d
      | some _ =>
        aoRedimensionar resto
          (alterarElemento (alterarCanvas (ajustar (min entry.width entry.height))) d
            entry.target)

/-! ## Evaluation lemmas -/

theorem toLowerCase_str (t : String) :
    toLowerCase (.str t) = .ok (String.mk (t.data.map minuscula)) := rfl

theorem lerPropriedade_obj (ps : Props) (k : String) :
    lerPropriedade (.obj ps) k = .ok (lerCampo ps k) := rfl

theorem desestruturar_obj (ps : Props) :
    desestruturar (.obj ps) = .ok (lerCampo ps "elementoId", lerCampo ps "valor",
      lerCampo ps "tipo", comPadrao (lerCampo ps "opcoes") (.obj [])) := rfl

theorem desestruturar_ok (config : JSVal) (h1 : config ≠ .undefined) (h2 : config ≠ .null) :
    ∃ r, desestruturar config = .ok r := by
  cases config <;> first | contradiction | exact ⟨_, rfl⟩

theorem buscar_append (a b : Props) (k : String) :
    buscar (a ++ b) k = match buscar b k with
      | some v => some v
      | none => buscar a k := by
  induction a with
  | nil => simp only [List.nil_append]; cases buscar b k <;> rfl
  | cons par resto ih =>
    obtain ⟨k1, v1⟩ := par
    have e1 : buscar ((k1, v1) :: (resto ++ b)) k = (match buscar (resto ++ b) k with
        | some w => some w
        | none => if k1 = k then some v1 else none) := rfl
    have e2 : buscar ((k1, v1) :: resto) k = (match buscar resto k with
        | some w => some w
        | none => if k1 = k then some v1 else none) := rfl
    rw [List.cons_append, e1, e2, ih]
    cases buscar b k <;> rfl

theorem lerCampo_append (a b : Props) (k : String) :
    lerCampo (a ++ b) k = match buscar b k with
      | some v => v
      | none => lerCampo a k := by
  unfold lerCampo
  rw [buscar_append]
  cases buscar b k <;> rfl

theorem montarOpcoesQR_str (t : String) (opcoes : JSVal) :
    montarOpcoesQR (.str t) opcoes =
      .ok ((if String.mk (t.data.map minuscula) = "pix" then configPadrao ++ atribuicoesPix
        else configPadrao) ++ propriedadesProprias opcoes) := rfl

theorem montarOpcoesQR_ok (tipo opcoes : JSVal) (o : Props)
    (h : montarOpcoesQR tipo opcoes = .ok o) :
    ∃ t, tipo = .str t ∧
      o = (if String.mk (t.data.map minuscula) = "pix" then configPadrao ++ atribuicoesPix
        else configPadrao) ++ propriedadesProprias opcoes := by
  cases tipo with
  | str t =>
    rw [montarOpcoesQR_str] at h
    exact ⟨t, rfl, (Except.ok.inj h).symm⟩
  | _ => cases h

theorem camadas_do_codigo (pix : Bool) (chamador : Props) (k : String)
    (hk : k ∈ camposDeEstilo) :
    lerCampo ((if pix then configPadrao ++ atribuicoesPix else configPadrao) ++ chamador) k =
      especCamadas pix chamador k := by
  rw [lerCampo_append]
  unfold especCamadas
  cases buscar chamador k with
  | some v => rfl
  | none =>
    simp only [camposDeEstilo, List.mem_cons, List.mem_singleton, List.not_mem_nil,
      or_false] at hk
    rcases hk with rfl | rfl | rfl | rfl | rfl | rfl | rfl <;> cases pix <;> rfl

theorem corpoTry_chamadas (toCanvas : ToCanvas) (elementoId valor tipo opcoes : JSVal)
    (m : Mundo) :
    (corpoTry toCanvas elementoId valor tipo opcoes m).2.chamadas = m.chamadas ∨
    ∃ id vf o, montarOpcoesQR tipo opcoes = .ok o ∧
      (corpoTry toCanvas elementoId valor tipo opcoes m).2.chamadas =
        m.chamadas ++ [⟨id, vf, o⟩] := by
  unfold corpoTry
  split
  · exact Or.inl rfl
  · split
    · exact Or.inl rfl
    · split
      · exact Or.inl rfl
      · split
        · exact Or.inl rfl
        · rename_i o ho
          split
          · exact Or.inl rfl
          · rename_i vf hvf
            have hm1 : ∀ (c : Conteudo) (id : String), (match querySelectorCanvas c with
                | some _ => m
                | none => { m with documento :=
                    alterarElemento (fun _ => [No.canvas createCanvas]) m.documento id }
                  : Mundo).chamadas = m.chamadas := by
              intro c id; split <;> rfl
            dsimp only
            split
            · exact Or.inr ⟨_, vf, o, ho, by rw [hm1]⟩
            · split
              · exact Or.inr ⟨_, vf, o, ho, by rw [hm1]⟩
              · exact Or.inr ⟨_, vf, o, ho, by rw [hm1]⟩

theorem gerarQRCode_chamadas (toCanvas : ToCanvas) (ps : Props) (m : Mundo) :
    (gerarQRCode toCanvas (.obj ps) m).2.chamadas =
      (corpoTry toCanvas (lerCampo ps "elementoId") (lerCampo ps "valor") (lerCampo ps "tipo")
        (comPadrao (lerCampo ps "opcoes") (.obj [])) m).2.chamadas := by
  unfold gerarQRCode
  rw [desestruturar_obj]
  dsimp only
  split <;> rename_i h <;> rw [h]

theorem corpoTry_ok (toCanvas : ToCanvas) (elementoId valor tipo opcoes : JSVal) (m : Mundo) :
    (corpoTry toCanvas elementoId valor tipo opcoes m).1 = .ok () →
    ∃ c, (corpoTry toCanvas elementoId valor tipo opcoes m).2.chamadas = m.chamadas ++ [c] ∧
      toCanvas c.valorFormatado c.opcoesQR = .ok () := by
  unfold corpoTry
  split
  · intro h; cases h
  · split
    · intro h; cases h
    · split
      · intro h; cases h
      · split
        · intro h; cases h
        · rename_i o ho
          split
          · intro h; cases h
          · rename_i vf hvf
            have hm1 : ∀ (c : Conteudo) (id : String), (match querySelectorCanvas c with
                | some _ => m
                | none => { m with documento :=
                    alterarElemento (fun _ => [No.canvas createCanvas]) m.documento id }
                  : Mundo).chamadas = m.chamadas := by
              intro c id; split <;> rfl
            dsimp only
            split
            · intro h; cases h
            · rename_i u htc
              split
              · intro h; cases h
              · intro _
                exact ⟨⟨_, vf, o⟩, by rw [hm1], htc⟩

theorem startsWith_iff (v p : String) : startsWith v p = true ↔ ∃ r, v = p ++ r := by
  unfold startsWith
  rw [List.isPrefixOf_iff_prefix]
  constructor
  · rintro ⟨t, ht⟩
    exact ⟨String.mk t, by apply String.ext; simp [ht]⟩
  · rintro ⟨r, rfl⟩
    exact ⟨r.data, by simp⟩

theorem formatarValorQR_url_str (v : String) :
    formatarValorQR (.str v) (.str "url") =
      .ok (.str (if startsWith v "http" then v else "https://" ++ v)) := by
  have h : toLowerCase (.str "url") = .ok "url" := rfl
  simp [formatarValorQR, h, receptorString, bind, Except.bind, pure, Except.pure]
  split <;> simp_all

theorem naoDigito_eq (c : Char) : naoDigito c = !decide ('0' ≤ c ∧ c ≤ '9') := by
  unfold naoDigito
  have h1 : ('0' ≤ c) ↔ 48 ≤ c.toNat := Iff.rfl
  have h2 : (c ≤ '9') ↔ c.toNat ≤ 57 := Iff.rfl
  simp [h1, h2]

theorem removerNaoDigitos_eq_filter (l : List Char) :
    removerNaoDigitos l = l.filter (fun c => decide ('0' ≤ c ∧ c ≤ '9')) := by
  induction l with
  | nil => rfl
  | cons c resto ih =>
    rw [removerNaoDigitos, ih, naoDigito_eq]
    by_cases h : '0' ≤ c ∧ c ≤ '9' <;> simp [h]

theorem formatarValorQR_tel_str (v : String) :
    formatarValorQR (.str v) (.str "tel") = .ok (.str ("tel:" ++ replaceNaoDigitos v)) := by
  have h : toLowerCase (.str "tel") = .ok "tel" := rfl
  simp [formatarValorQR, h, receptorString, bind, Except.bind, pure, Except.pure]

theorem formatarValorQR_sms_str (v : String) :
    formatarValorQR (.str v) (.str "sms") = .ok (.str ("sms:" ++ replaceNaoDigitos v)) := by
  have h : toLowerCase (.str "sms") = .ok "sms" := rfl
  simp [formatarValorQR, h, receptorString, bind, Except.bind, pure, Except.pure]

/-! ## Payload formatting and rendering: the claims -/

/-- C1. `formatarValorQR` is not total on the values its documentation admits: for the number
`123` the `tel` arm throws a `TypeError` (as do `url` and `sms`), and the `pix` arm returns the
number itself, which is not a string. -/
theorem formatarValorQR_numero_nao_total :
    formatarValorQR (.num 123) (.str "tel") = .error .typeError ∧
    formatarValorQR (.num 123) (.str "url") = .error .typeError ∧
    formatarValorQR (.num 123) (.str "sms") = .error .typeError ∧
    formatarValorQR (.num 123) (.str "pix") = .ok (.num 123) :=
  ⟨rfl, rfl, rfl, rfl⟩

/-- C2, as stated: a call of `gerarQRCode` with no configuration record at all does not
resolve to a boolean, its promise is rejected with a `TypeError`. -/
theorem gerarQRCode_sem_config_rejeitada :
    (gerarQRCode (fun _ _ => .ok ()) .undefined ⟨[], [], [], []⟩).1 = .rejeitada .typeError :=
  rfl

/-- C2, amended: for every argument other than `undefined` and `null` (whatever its fields,
so also with a `tipo` that is not a string or an `opcoes` that is `null`), every render
capability and every environment, the promise of `gerarQRCode` resolves to a boolean and is
not rejected. It resolves to `true` exactly when the body of the `try` block ran to its end,
in which case the render capability was called once and resolved; and whenever anything
inside the block threw, it resolves to `false` and that error is what was added to the
console. -/
theorem gerarQRCode_resolve_booleano (toCanvas : ToCanvas) (config : JSVal) (m : Mundo)
    (h1 : config ≠ .undefined) (h2 : config ≠ .null) :
    ∃ e v t o, desestruturar config = .ok (e, v, t, o) ∧
      ((∃ m1, corpoTry toCanvas e v t o m = (.ok (), m1) ∧
          gerarQRCode toCanvas config m = (.resolvida (.bool true), m1) ∧
          ∃ c, m1.chamadas = m.chamadas ++ [c] ∧
            toCanvas c.valorFormatado c.opcoesQR = .ok ()) ∨
        (∃ erro m1, corpoTry toCanvas e v t o m = (.error erro, m1) ∧
          gerarQRCode toCanvas config m =
            (.resolvida (.bool false), { m1 with console := m1.console ++ [erro] }))) := by
  obtain ⟨⟨e, v, t, o⟩, hr⟩ := desestruturar_ok config h1 h2
  refine ⟨e, v, t, o, hr, ?_⟩
  unfold gerarQRCode
  rw [hr]
  dsimp only
  have hok := corpoTry_ok toCanvas e v t o m
  rcases hc : corpoTry toCanvas e v t o m with ⟨r, m1⟩
  rw [hc] at hok
  cases r with
  | ok u => exact Or.inl ⟨m1, rfl, rfl, hok rfl⟩
  | error erro => exact Or.inr ⟨erro, m1, rfl, rfl⟩

/-- Witness of C2 amended: a record whose `tipo` is the number 5 and whose `opcoes` is
`null` resolves to `false`, with the `TypeError` of `tipo.toLowerCase()` logged. -/
theorem gerarQRCode_resolve_booleano_witness :
    ∃ e v t o,
      desestruturar (.obj [("elementoId", .str "qr"), ("valor", .str "a"), ("tipo", .num 5),
        ("opcoes", .null)]) = .ok (e, v, t, o) ∧
      ((∃ m1, corpoTry (fun _ _ => .ok ()) e v t o ⟨[("qr", [])], [], [], []⟩ = (.ok (), m1) ∧
          gerarQRCode (fun _ _ => .ok ())
            (.obj [("elementoId", .str "qr"), ("valor", .str "a"), ("tipo", .num 5),
              ("opcoes", .null)]) ⟨[("qr", [])], [], [], []⟩ = (.resolvida (.bool true), m1) ∧
          ∃ c, m1.chamadas = (⟨[("qr", [])], [], [], []⟩ : Mundo).chamadas ++ [c] ∧
            (fun _ _ => .ok () : ToCanvas) c.valorFormatado c.opcoesQR = .ok ()) ∨
        (∃ erro m1,
          corpoTry (fun _ _ => .ok ()) e v t o ⟨[("qr", [])], [], [], []⟩ = (.error erro, m1) ∧
          gerarQRCode (fun _ _ => .ok ())
            (.obj [("elementoId", .str "qr"), ("valor", .str "a"), ("tipo", .num 5),
              ("opcoes", .null)]) ⟨[("qr", [])], [], [], []⟩ =
            (.resolvida (.bool false), { m1 with console := m1.console ++ [erro] }))) :=
  gerarQRCode_resolve_booleano _ _ _ (by intro h; cases h) (by intro h; cases h)

/-- C3. A request in which `elementoId`, `valor` or `tipo` is absent or falsy resolves to
`false`, whatever the document and the render capability are; the environment is left as it
was (document, observations and render calls untouched) but for the logged error. -/
theorem gerarQRCode_parametro_ausente (toCanvas : ToCanvas) (ps : Props) (m : Mundo)
    (h : truthy (lerCampo ps "elementoId") = false ∨ truthy (lerCampo ps "valor") = false ∨
      truthy (lerCampo ps "tipo") = false) :
    gerarQRCode toCanvas (.obj ps) m =
      (.resolvida (.bool false),
        { m with console := m.console ++ [.error "Parâmetros obrigatórios não fornecidos"] }) := by
  unfold gerarQRCode
  rw [desestruturar_obj]
  dsimp only
  have hc : corpoTry toCanvas (lerCampo ps "elementoId") (lerCampo ps "valor")
      (lerCampo ps "tipo") (comPadrao (lerCampo ps "opcoes") (.obj [])) m =
      (.error (.error "Parâmetros obrigatórios não fornecidos"), m) := by
    unfold corpoTry
    rcases h with h | h | h <;> simp [h]
  rw [hc]

/-- Witness of C3: a request with the value `0` (falsy) for an existing container. -/
theorem gerarQRCode_parametro_ausente_witness :
    gerarQRCode (fun _ _ => .ok ())
        (.obj [("elementoId", .str "qr"), ("valor", .num 0), ("tipo", .str "url")])
        ⟨[("qr", [.outro "p"])], [], [], []⟩ =
      (.resolvida (.bool false),
        ⟨[("qr", [.outro "p"])], [], [],
          [.error "Parâmetros obrigatórios não fornecidos"]⟩) :=
  gerarQRCode_parametro_ausente _ _ _ (Or.inr (Or.inl rfl))

/-- C4. With all three parameters present and truthy, an existing container and a render
capability that always resolves, the request `valor = 123`, `tipo = 'tel'` (and likewise
`'url'`) still resolves to `false`: the formatter throws a `TypeError`, which is logged,
before any canvas is created or the capability is called. -/
theorem gerarQRCode_numero_tel_falha :
    gerarQRCode (fun _ _ => .ok ())
        (.obj [("elementoId", .str "qr"), ("valor", .num 123), ("tipo", .str "tel")])
        ⟨[("qr", [])], [], [], []⟩ =
      (.resolvida (.bool false), ⟨[("qr", [])], [], [], [.typeError]⟩) ∧
    gerarQRCode (fun _ _ => .ok ())
        (.obj [("elementoId", .str "qr"), ("valor", .num 123), ("tipo", .str "url")])
        ⟨[("qr", [])], [], [], []⟩ =
      (.resolvida (.bool false), ⟨[("qr", [])], [], [], [.typeError]⟩) :=
  ⟨rfl, rfl⟩

/-- C5, as stated: a caller that sets only the dark colour does not get the light colour
of the defaults. The colours are the one top-level field `color`; the caller's record replaces the
default one whole, and the options passed to the render capability have no `light`. -/
theorem gerarQRCode_so_dark_sem_light :
    (gerarQRCode (fun _ _ => .ok ())
        (.obj [("elementoId", .str "qr"), ("valor", .str "a"), ("tipo", .str "url"),
          ("opcoes", .obj [("color", .obj [("dark", .str "#123456")])])])
        ⟨[("qr", [])], [], [], []⟩).2.chamadas.map (fun c => lerCampo c.opcoesQR "color") =
      [.obj [("dark", .str "#123456")]] ∧
    lerCampo [("dark", .str "#123456")] "light" = .undefined ∧
    lerCampo [("dark", .str "#123456")] "light" ≠ .str "#FFFFFF" ∧
    montarOpcoesQR (.str "url") (.obj [("color", .obj [("dark", .str "#123456")])]) =
      .ok (configPadrao ++ [("color", .obj [("dark", .str "#123456")])]) :=
  ⟨rfl, rfl, (fun h => JSVal.noConfusion h), rfl⟩

/-- C5, amended: the options are layered by top-level field (`width`, `height`, `margin`,
`color`, `errorCorrectionLevel`, `version`, `maskPattern`). Whenever `gerarQRCode` calls the
render capability, `tipo` is a string and each of these fields of the options passed is the
caller's value if the caller's `opcoes` carries the field; otherwise, when `tipo` lower-cased
is `pix`, the PIX override for the fields it has (`errorCorrectionLevel` Q, `margin` 0,
`width` and `height` 350); otherwise the fixed default, where `color` is the record of dark
`#000000` and light `#FFFFFF` and `version` and `maskPattern` are unset. -/
theorem gerarQRCode_opcoes_em_camadas (toCanvas : ToCanvas) (ps : Props) (m : Mundo)
    (c : Chamada)
    (hc : (gerarQRCode toCanvas (.obj ps) m).2.chamadas = m.chamadas ++ [c]) :
    ∃ t, lerCampo ps "tipo" = .str t ∧
      ∀ k ∈ camposDeEstilo, lerCampo c.opcoesQR k =
        especCamadas (decide (String.mk (t.data.map minuscula) = "pix"))
          (propriedadesProprias (comPadrao (lerCampo ps "opcoes") (.obj []))) k := by
  rw [gerarQRCode_chamadas] at hc
  rcases corpoTry_chamadas toCanvas (lerCampo ps "elementoId") (lerCampo ps "valor")
    (lerCampo ps "tipo") (comPadrao (lerCampo ps "opcoes") (.obj [])) m with h | ⟨id, vf, o, ho, h⟩
  · rw [h] at hc
    have hl := congrArg List.length hc
    simp at hl
  · rw [h] at hc
    have hcs := List.append_cancel_left hc
    have hc1 : c = ⟨id, vf, o⟩ := by
      injection hcs with h1 _
      exact h1.symm
    obtain ⟨t, ht, hot⟩ := montarOpcoesQR_ok _ _ _ ho
    refine ⟨t, ht, fun k hk => ?_⟩
    subst hc1
    subst hot
    rw [← camadas_do_codigo _ _ k hk]
    simp only [decide_eq_true_eq]

/-- Witness of C5 amended: a `PIX` request whose caller sets only `width`. -/
theorem gerarQRCode_opcoes_em_camadas_witness :
    ∃ t, lerCampo [("elementoId", .str "qr"), ("valor", .str "abc"), ("tipo", .str "PIX"),
        ("opcoes", .obj [("width", .num 100)])] "tipo" = .str t ∧
      ∀ k ∈ camposDeEstilo,
        lerCampo (configPadrao ++ atribuicoesPix ++ [("width", .num 100)]) k =
          especCamadas (decide (String.mk (t.data.map minuscula) = "pix"))
            (propriedadesProprias (comPadrao
              (lerCampo [("elementoId", .str "qr"), ("valor", .str "abc"),
                ("tipo", .str "PIX"), ("opcoes", .obj [("width", .num 100)])] "opcoes")
              (.obj []))) k :=
  gerarQRCode_opcoes_em_camadas (fun _ _ => .ok ())
    [("elementoId", .str "qr"), ("valor", .str "abc"), ("tipo", .str "PIX"),
      ("opcoes", .obj [("width", .num 100)])]
    ⟨[("qr", [])], [], [], []⟩
    ⟨"qr", JSVal.str "abc", configPadrao ++ atribuicoesPix ++ [("width", JSVal.num 100)]⟩
    (by rfl)

/-- C6. For every string `v`, `formatarValorQR(v, 'pix')` is `v` itself, whether or not it
starts with `00020126` or contains `BR.GOV.BCB.PIX` (the empty string included). -/
theorem formatarValorQR_pix_string (v : String) :
    formatarValorQR (.str v) (.str "pix") = .ok (.str v) := by
  have h : toLowerCase (.str "pix") = .ok "pix" := rfl
  simp [formatarValorQR, h, receptorString, bind, Except.bind, pure, Except.pure, typeof]

/-- C7, as stated: the record that carries `dadosEmv` with the empty string and a non-empty
`payload` is not formatted as the value of its `dadosEmv` field, but as its `payload`. -/
theorem formatarValorQR_pix_dadosEmv_vazio :
    buscar [("dadosEmv", .str ""), ("payload", .str "X")] "dadosEmv" = some (.str "") ∧
    formatarValorQR (.obj [("dadosEmv", .str ""), ("payload", .str "X")]) (.str "pix") =
      .ok (.str "X") ∧
    formatarValorQR (.obj [("dadosEmv", .str ""), ("payload", .str "X")]) (.str "pix") ≠
      .ok (.str "") :=
  ⟨rfl, rfl, fun h => absurd (show "X" = "" by injection h with h; injection h) (by decide)⟩

/-- C7, amended: for every record `r`, `formatarValorQR(r, 'pix')` is the value of `dadosEmv`
if that value is truthy, else the value of `payload` if that value is truthy, else the empty
string (an absent field reads as `undefined`, which is falsy). -/
theorem formatarValorQR_pix_registro (ps : Props) :
    formatarValorQR (.obj ps) (.str "pix") =
      .ok (if truthy (lerCampo ps "dadosEmv") then lerCampo ps "dadosEmv"
        else if truthy (lerCampo ps "payload") then lerCampo ps "payload"
        else .str "") := by
  have h : toLowerCase (.str "pix") = .ok "pix" := rfl
  simp [formatarValorQR, h, formatarStringPix, lerPropriedade_obj, bind, Except.bind, pure,
    Except.pure, typeof]
  cases h1 : truthy (lerCampo ps "dadosEmv") <;> cases h2 : truthy (lerCampo ps "payload") <;>
    simp

/-- C8. For every string `v`, `formatarValorQR(v, 'url')` is `v` when `v` is `http` followed
by anything, and `https://` followed by `v` when it is not. -/
theorem formatarValorQR_url (v : String) :
    ((∃ r, v = "http" ++ r) → formatarValorQR (.str v) (.str "url") = .ok (.str v)) ∧
    ((¬ ∃ r, v = "http" ++ r) →
      formatarValorQR (.str v) (.str "url") = .ok (.str ("https://" ++ v))) := by
  rw [formatarValorQR_url_str, ← startsWith_iff]
  constructor
  · intro h; rw [if_pos h]
  · intro h; rw [if_neg h]

/-- Witness of C8: `example.com` gains the prefix, `http://example.com` is unchanged. -/
theorem formatarValorQR_url_witness :
    formatarValorQR (.str "example.com") (.str "url") = .ok (.str "https://example.com") ∧
    formatarValorQR (.str "http://example.com") (.str "url") =
      .ok (.str "http://example.com") :=
  ⟨(formatarValorQR_url "example.com").2
      (fun h => absurd ((startsWith_iff "example.com" "http").mpr h) (by decide)),
    (formatarValorQR_url "http://example.com").1 ⟨"://example.com", rfl⟩⟩

/-- C9. For every string `v` and scheme `s` among `tel` and `sms`, `formatarValorQR(v, s)` is
`s`, a colon, and the characters of `v` that are decimal digits `0`..`9`, all of them and in
their order. -/
theorem formatarValorQR_telefone (v s : String) (hs : s = "tel" ∨ s = "sms") :
    formatarValorQR (.str v) (.str s) =
      .ok (.str (s ++ ":" ++ String.mk (v.data.filter (fun c => decide ('0' ≤ c ∧ c ≤ '9'))))) := by
  rcases hs with rfl | rfl
  · rw [formatarValorQR_tel_str, replaceNaoDigitos, removerNaoDigitos_eq_filter]; rfl
  · rw [formatarValorQR_sms_str, replaceNaoDigitos, removerNaoDigitos_eq_filter]; rfl

/-- Witness of C9: `(55) 1234-5678` as `tel` gives `tel:5512345678`, and `5551234` gives
`tel:5551234`. -/
theorem formatarValorQR_telefone_witness :
    formatarValorQR (.str "(55) 1234-5678") (.str "tel") = .ok (.str "tel:5512345678") ∧
    formatarValorQR (.str "5551234") (.str "tel") = .ok (.str "tel:5551234") :=
  ⟨(formatarValorQR_telefone "(55) 1234-5678" "tel" (Or.inl rfl)).trans rfl,
    (formatarValorQR_telefone "5551234" "tel" (Or.inl rfl)).trans rfl⟩

/-- C10. For every record whose `nome`, `telefone` and `email` are strings,
`formatarValorQR(record, 'contato')` is the six lines `BEGIN:VCARD`, `VERSION:3.0`,
`N:<nome>`, `TEL:<telefone>`, `EMAIL:<email>`, `END:VCARD` joined by single newlines, with
no newline after the last. -/
theorem formatarValorQR_contato (ps : Props) (nome telefone email : String)
    (hn : buscar ps "nome" = some (.str nome))
    (ht : buscar ps "telefone" = some (.str telefone))
    (he : buscar ps "email" = some (.str email)) :
    formatarValorQR (.obj ps) (.str "contato") =
      .ok (.str (String.intercalate "\n"
        ["BEGIN:VCARD", "VERSION:3.0", "N:" ++ nome, "TEL:" ++ telefone, "EMAIL:" ++ email,
          "END:VCARD"])) := by
  have h : toLowerCase (.str "contato") = .ok "contato" := rfl
  have hl : String.intercalate "\n"
      ["BEGIN:VCARD", "VERSION:3.0", "N:" ++ nome, "TEL:" ++ telefone, "EMAIL:" ++ email,
        "END:VCARD"] =
      "BEGIN:VCARD\nVERSION:3.0\nN:" ++ nome ++ "\nTEL:" ++ telefone ++ "\nEMAIL:" ++ email
        ++ "\nEND:VCARD" := by
    apply String.ext
    simp only [String.intercalate, String.intercalate.go, String.data_append, List.append_assoc]
    rfl
  rw [hl]
  simp [formatarValorQR, h, fonteDesestruturada, lerCampo, hn, ht, he, paraString, bind,
    Except.bind, pure, Except.pure, typeof]

/-- Witness of C10: the record of Ana. -/
theorem formatarValorQR_contato_witness :
    formatarValorQR
        (.obj [("nome", .str "Ana"), ("telefone", .str "123"), ("email", .str "a@b.com")])
        (.str "contato") =
      .ok (.str "BEGIN:VCARD\nVERSION:3.0\nN:Ana\nTEL:123\nEMAIL:a@b.com\nEND:VCARD") :=
  (formatarValorQR_contato
    [("nome", .str "Ana"), ("telefone", .str "123"), ("email", .str "a@b.com")]
    "Ana" "123" "a@b.com" rfl rfl rfl).trans rfl

/-! ## Further evaluation lemmas -/

theorem formatarValorQR_wifi_obj (ps : Props) :
    formatarValorQR (.obj ps) (.str "wifi") =
      (do
        let c ← paraString (comPadrao (lerCampo ps "criptografia") (.str "WPA"))
        let n ← paraString (lerCampo ps "nomeRede")
        let p ← paraString (lerCampo ps "senha")
        pure (.str ("WIFI:T:" ++ c ++ ";S:" ++ n ++ ";P:" ++ p ++ ";;"))) := rfl

theorem formatarValorQR_contato_obj (ps : Props) :
    formatarValorQR (.obj ps) (.str "contato") =
      (do
        let n ← paraString (lerCampo ps "nome")
        let tl ← paraString (lerCampo ps "telefone")
        let e ← paraString (lerCampo ps "email")
        pure (.str ("BEGIN:VCARD\nVERSION:3.0\nN:" ++ n ++ "\nTEL:" ++ tl ++ "\nEMAIL:" ++ e
          ++ "\nEND:VCARD"))) := rfl

theorem formatarValorQR_congr (v t1 t2 : JSVal) (h : toLowerCase t1 = toLowerCase t2) :
    formatarValorQR v t1 = formatarValorQR v t2 := by
  unfold formatarValorQR
  rw [h]

theorem toNat_ofNat_pequeno (n : Nat) (h : n < 55296) : (Char.ofNat n).toNat = n := by
  have hvalid : n.isValidChar := Or.inl h
  simp only [Char.ofNat, hvalid, dite_true, Char.ofNatAux, Char.toNat]
  simp [UInt32.toNat, UInt32.ofNat']

theorem minuscula_minuscula (c : Char) : minuscula (minuscula c) = minuscula c := by
  unfold minuscula
  by_cases h : 65 ≤ c.toNat ∧ c.toNat ≤ 90
  · rw [if_pos h]
    have hv : (Char.ofNat (c.toNat + 32)).toNat = c.toNat + 32 :=
      toNat_ofNat_pequeno _ (by omega)
    rw [if_neg]
    rw [hv]; omega
  · rw [if_neg h, if_neg h]

theorem toLowerCase_idem (t : String) :
    toLowerCase (.str (String.mk (t.data.map minuscula))) = toLowerCase (.str t) := by
  rw [toLowerCase_str, toLowerCase_str]
  simp [List.map_map, Function.comp_def, minuscula_minuscula]

theorem lerCampo_str (ps : Props) (k s : String) (h : buscar ps k = some (.str s)) :
    lerCampo ps k = .str s := by
  unfold lerCampo; rw [h]

theorem lerCampo_ausente (ps : Props) (k : String) (h : buscar ps k = none) :
    lerCampo ps k = .undefined := by
  unfold lerCampo; rw [h]

theorem paraString_campo (ps : Props) (k padrao : String)
    (h : ∀ x, buscar ps k = some x → ∃ s, paraString x = .ok s) :
    paraString (comPadrao (lerCampo ps k) (.str padrao)) = .ok (textoDoCampo ps k padrao) := by
  unfold lerCampo textoDoCampo
  cases hb : buscar ps k with
  | none => rfl
  | some x =>
    obtain ⟨s, hs⟩ := h x hb
    cases x with
    | undefined => rfl
    | _ => simp only [comPadrao, hs]

theorem paraString_campo_undefined (ps : Props) (k : String)
    (h : ∀ x, buscar ps k = some x → ∃ s, paraString x = .ok s) :
    paraString (lerCampo ps k) = .ok (textoDoCampo ps k "undefined") := by
  unfold lerCampo textoDoCampo
  cases hb : buscar ps k with
  | none => rfl
  | some x =>
    obtain ⟨s, hs⟩ := h x hb
    cases x with
    | undefined => rfl
    | _ => simp only [hs]

theorem sem_separador_cancel (a b r q : List Char) (ha : ';' ∉ a) (hb : ';' ∉ b)
    (h : a ++ ';' :: r = b ++ ';' :: q) : a = b ∧ r = q := by
  induction a generalizing b with
  | nil =>
    cases b with
    | nil => exact ⟨rfl, List.tail_eq_of_cons_eq h⟩
    | cons y ys =>
      have hy : ';' = y := List.head_eq_of_cons_eq h
      exact absurd (hy ▸ List.mem_cons_self _ _) hb
  | cons x xs ih =>
    cases b with
    | nil =>
      have hx : x = ';' := List.head_eq_of_cons_eq h
      exact absurd (hx ▸ List.mem_cons_self _ _) ha
    | cons y ys =>
      have hxy : x = y := List.head_eq_of_cons_eq h
      have ht : xs ++ ';' :: r = ys ++ ';' :: q := List.tail_eq_of_cons_eq h
      obtain ⟨h1, h2⟩ := ih ys (fun hm => ha (List.mem_cons_of_mem _ hm))
        (fun hm => hb (List.mem_cons_of_mem _ hm)) ht
      exact ⟨by rw [hxy, h1], h2⟩

theorem wifi_payload_injetivo (ca na sa cb nb sb : String)
    (h1 : ';' ∉ ca.data) (h2 : ';' ∉ na.data) (h3 : ';' ∉ sa.data)
    (h4 : ';' ∉ cb.data) (h5 : ';' ∉ nb.data) (h6 : ';' ∉ sb.data)
    (h : "WIFI:T:" ++ ca ++ ";S:" ++ na ++ ";P:" ++ sa ++ ";;" =
      "WIFI:T:" ++ cb ++ ";S:" ++ nb ++ ";P:" ++ sb ++ ";;") :
    ca = cb ∧ na = nb ∧ sa = sb := by
  have hd := congrArg String.data h
  simp only [String.data_append, List.append_assoc] at hd
  have hd1 := List.append_cancel_left hd
  have e1 : ca.data ++ ';' :: ('S' :: ':' :: (na.data ++ (";P:".data ++ (sa.data ++ ";;".data))))
      = cb.data ++ ';' :: ('S' :: ':' :: (nb.data ++ (";P:".data ++ (sb.data ++ ";;".data)))) :=
    hd1
  obtain ⟨hc, r1⟩ := sem_separador_cancel _ _ _ _ h1 h4 e1
  have r2 : na.data ++ (";P:".data ++ (sa.data ++ ";;".data)) =
      nb.data ++ (";P:".data ++ (sb.data ++ ";;".data)) :=
    List.tail_eq_of_cons_eq (List.tail_eq_of_cons_eq r1)
  have e2 : na.data ++ ';' :: ('P' :: ':' :: (sa.data ++ ";;".data)) =
      nb.data ++ ';' :: ('P' :: ':' :: (sb.data ++ ";;".data)) := r2
  obtain ⟨hn, r3⟩ := sem_separador_cancel _ _ _ _ h2 h5 e2
  have r4 : sa.data ++ ";;".data = sb.data ++ ";;".data :=
    List.tail_eq_of_cons_eq (List.tail_eq_of_cons_eq r3)
  have e3 : sa.data ++ ';' :: [';'] = sb.data ++ ';' :: [';'] := r4
  obtain ⟨hs, _⟩ := sem_separador_cancel _ _ _ _ h3 h6 e3
  exact ⟨String.ext hc, String.ext hn, String.ext hs⟩

theorem executarFuncao_armado {α : Type} (w t t1 n id : Nat) (a a1 : α)
    (h1 : t ≤ t1) (h2 : t1 < t + w) :
    executarFuncao w a1 (avancarAte t1 ⟨t, n, [⟨id, t + w, a⟩], some id, []⟩) =
      ⟨t1, n + 1, [⟨n, t1 + w, a1⟩], some n, []⟩ := by
  have hf : ¬ (t + w ≤ t1) := by omega
  simp [executarFuncao, avancarAte, dispararAte, maisCedo, clearTimeout, setTimeout, hf,
    Nat.max_eq_right h1]

theorem executarFuncao_inicial {α : Type} (w t0 : Nat) (a0 : α) :
    executarFuncao w a0 (avancarAte t0 (debounceQrCode α)) =
      ⟨t0, 2, [⟨1, t0 + w, a0⟩], some 1, []⟩ := by
  simp [executarFuncao, avancarAte, dispararAte, debounceQrCode, clearTimeout, setTimeout]

theorem avancarAte_dispara {α : Type} (w t n id fim : Nat) (a : α) (h : t + w ≤ fim) :
    avancarAte fim (⟨t, n, [⟨id, t + w, a⟩], some id, []⟩ : Debounce α) =
      ⟨fim, n, [], some id, [(t + w, a)]⟩ := by
  simp [avancarAte, dispararAte, maisCedo, depois, clearTimeout, h]

theorem avancarAte_espera {α : Type} (w t n id fim : Nat) (a : α) (h : fim < t + w) :
    (avancarAte fim (⟨t, n, [⟨id, t + w, a⟩], some id, []⟩ : Debounce α)).executadas = [] := by
  have hf : ¬ (t + w ≤ fim) := by omega
  simp [avancarAte, dispararAte, maisCedo, hf]

theorem rajada_armada {α : Type} (w : Nat) (resto : List (Nat × α)) :
    ∀ (t n id : Nat) (a : α),
      List.Chain (fun x y => x.1 ≤ y.1 ∧ y.1 < x.1 + w) (t, a) resto →
      ∃ n1 id1, rajada w resto ⟨t, n, [⟨id, t + w, a⟩], some id, []⟩ =
        ⟨(((t, a) :: resto).getLast (List.cons_ne_nil _ _)).1, n1,
          [⟨id1, (((t, a) :: resto).getLast (List.cons_ne_nil _ _)).1 + w,
            (((t, a) :: resto).getLast (List.cons_ne_nil _ _)).2⟩], some id1, []⟩ := by
  induction resto with
  | nil => intro t n id a _; exact ⟨n, id, rfl⟩
  | cons par resto ih =>
    intro t n id a hch
    obtain ⟨t1, a1⟩ := par
    rw [List.chain_cons] at hch
    obtain ⟨⟨h1, h2⟩, hresto⟩ := hch
    obtain ⟨n1, id1, hr⟩ := ih t1 (n + 1) n a1 hresto
    refine ⟨n1, id1, ?_⟩
    rw [List.getLast_cons (List.cons_ne_nil _ _)]
    rw [← hr]
    show rajada w resto (executarFuncao w a1 (avancarAte t1 _)) = _
    rw [executarFuncao_armado w t t1 n id a a1 h1 h2]

theorem getElementById_alterarElemento (f : Conteudo → Conteudo) (d : Documento)
    (alvo id : String) :
    getElementById (alterarElemento f d alvo) id =
      if id = alvo then (getElementById d id).map f else getElementById d id := by
  induction d with
  | nil => simp [alterarElemento, getElementById]
  | cons par resto ih =>
    obtain ⟨k, c⟩ := par
    by_cases hk : k = alvo
    · subst hk
      by_cases hid : id = k
      · subst hid
        simp [alterarElemento, getElementById]
      · have hki : ¬ k = id := fun h => hid h.symm
        simp [alterarElemento, getElementById, hid, hki]
    · by_cases hid : id = alvo
      · subst hid
        have hki : ¬ k = id := hk
        simp [alterarElemento, getElementById, hki, ih]
      · by_cases hki : k = id
        · simp [alterarElemento, getElementById, hk, hki, hid]
        · simp [alterarElemento, getElementById, hk, hki, hid, ih]

theorem querySelectorCanvas_alterarCanvas (f : Canvas → Canvas) (c : Conteudo) :
    querySelectorCanvas (alterarCanvas f c) = (querySelectorCanvas c).map f := by
  induction c with
  | nil => rfl
  | cons no resto ih =>
    cases no with
    | canvas cv => rfl
    | outro t => simpa [alterarCanvas, querySelectorCanvas] using ih

theorem contarCanvas_alterarCanvas (f : Canvas → Canvas) (c : Conteudo) :
    contarCanvas (alterarCanvas f c) = contarCanvas c := by
  induction c with
  | nil => rfl
  | cons no resto ih =>
    cases no with
    | canvas cv => rfl
    | outro t => simpa [alterarCanvas, contarCanvas] using ih

theorem alterarCanvas_alterarCanvas (f g : Canvas → Canvas) (c : Conteudo) :
    alterarCanvas g (alterarCanvas f c) = alterarCanvas (fun cv => g (f cv)) c := by
  induction c with
  | nil => rfl
  | cons no resto ih =>
    cases no with
    | canvas cv => rfl
    | outro t => simp [alterarCanvas, ih]

theorem alterarCanvas_mesmo (c : Conteudo) : alterarCanvas (fun cv => cv) c = c := by
  induction c with
  | nil => rfl
  | cons no resto ih =>
    cases no with
    | canvas cv => rfl
    | outro t => simp [alterarCanvas, ih]

theorem querySelectorCanvas_de_contar (c : Conteudo) (h : contarCanvas c = 1) :
    ∃ cv, querySelectorCanvas c = some cv := by
  induction c with
  | nil => simp [contarCanvas] at h
  | cons no resto ih =>
    cases no with
    | canvas cv => exact ⟨cv, rfl⟩
    | outro t => exact ih h

/-- The document that the `try` block leaves, and whether it threw: either the document is
untouched and an error was thrown, or the container was found and the document is the one
after the canvas step (an error thrown later), or that one with the class of the canvas
written (no error). -/
theorem corpoTry_documento (toCanvas : ToCanvas) (elementoId valor tipo opcoes : JSVal)
    (m : Mundo) :
    ((corpoTry toCanvas elementoId valor tipo opcoes m).2.documento = m.documento ∧
      ∃ e, (corpoTry toCanvas elementoId valor tipo opcoes m).1 = .error e) ∨
    ∃ id c, paraString elementoId = .ok id ∧ getElementById m.documento id = some c ∧
      (((corpoTry toCanvas elementoId valor tipo opcoes m).2.documento =
          (match querySelectorCanvas c with
            | some _ => m.documento
            | none => alterarElemento (fun _ => [No.canvas createCanvas]) m.documento id) ∧
        ∃ e, (corpoTry toCanvas elementoId valor tipo opcoes m).1 = .error e) ∨
      ∃ t, (corpoTry toCanvas elementoId valor tipo opcoes m).2.documento =
          alterarElemento (alterarCanvas (fun cv => { cv with className := "qrcode-" ++ t }))
            (match querySelectorCanvas c with
              | some _ => m.documento
              | none => alterarElemento (fun _ => [No.canvas createCanvas]) m.documento id)
            id) := by
  unfold corpoTry
  split
  · exact Or.inl ⟨rfl, _, rfl⟩
  · split
    · exact Or.inl ⟨rfl, _, rfl⟩
    · rename_i id hid
      split
      · exact Or.inl ⟨rfl, _, rfl⟩
      · rename_i c hc
        split
        · exact Or.inl ⟨rfl, _, rfl⟩
        · split
          · exact Or.inl ⟨rfl, _, rfl⟩
          · refine Or.inr ⟨id, c, hid, hc, ?_⟩
            dsimp only
            split
            · refine Or.inl ⟨?_, _, rfl⟩
              cases querySelectorCanvas c <;> rfl
            · split
              · refine Or.inl ⟨?_, _, rfl⟩
                cases querySelectorCanvas c <;> rfl
              · rename_i t ht
                refine Or.inr ⟨t, ?_⟩
                cases querySelectorCanvas c <;> rfl

theorem gerarQRCode_documento (toCanvas : ToCanvas) (config : JSVal) (m : Mundo) :
    ((∃ e, desestruturar config = .error e) ∧
      (gerarQRCode toCanvas config m).2.documento = m.documento) ∨
    ∃ e v t o, desestruturar config = .ok (e, v, t, o) ∧
      (gerarQRCode toCanvas config m).2.documento = (corpoTry toCanvas e v t o m).2.documento ∧
      ((gerarQRCode toCanvas config m).1 = .resolvida (.bool true) →
        (corpoTry toCanvas e v t o m).1 = .ok ()) := by
  unfold gerarQRCode
  cases hd : desestruturar config with
  | error e => exact Or.inl ⟨⟨e, rfl⟩, rfl⟩
  | ok r =>
    obtain ⟨e, v, t, o⟩ := r
    refine Or.inr ⟨e, v, t, o, rfl, ?_⟩
    dsimp only
    rcases hc : corpoTry toCanvas e v t o m with ⟨res, m1⟩
    cases res with
    | ok u => exact ⟨rfl, fun _ => rfl⟩
    | error erro => exact ⟨rfl, fun h => by cases h⟩

/-- A call of `gerarQRCode` leaves a container that holds a canvas with the same nodes; only
attributes of its first canvas may have been written. -/
theorem gerarQRCode_reusa (toCanvas : ToCanvas) (config : JSVal) (m : Mundo) (id : String)
    (c : Conteudo) (cv : Canvas) (hget : getElementById m.documento id = some c)
    (hq : querySelectorCanvas c = some cv) :
    ∃ f, getElementById (gerarQRCode toCanvas config m).2.documento id =
      some (alterarCanvas f c) := by
  have hmesmo : ∃ f, getElementById m.documento id = some (alterarCanvas f c) :=
    ⟨fun x => x, by rw [alterarCanvas_mesmo]; exact hget⟩
  rcases gerarQRCode_documento toCanvas config m with ⟨_, h⟩ | ⟨e, v, t, o, _, hdoc, _⟩
  · rw [h]; exact hmesmo
  · rw [hdoc]
    have hD1 : ∀ (alvo : String) (c0 : Conteudo), getElementById m.documento alvo = some c0 →
        getElementById (match querySelectorCanvas c0 with
          | some _ => m.documento
          | none => alterarElemento (fun _ => [No.canvas createCanvas]) m.documento alvo) id =
          some c := by
      intro alvo c0 hc0
      cases hq0 : querySelectorCanvas c0 with
      | some _ => exact hget
      | none =>
        dsimp only
        rw [getElementById_alterarElemento]
        by_cases hid : id = alvo
        · subst hid
          rw [hget] at hc0
          cases hc0
          rw [hq] at hq0
          cases hq0
        · rw [if_neg hid]; exact hget
    rcases corpoTry_documento toCanvas e v t o m with ⟨h, _⟩ | ⟨alvo, c0, _, hc0, h⟩
    · rw [h]; exact hmesmo
    · rcases h with ⟨h, _⟩ | ⟨tl, h⟩
      · rw [h, hD1 alvo c0 hc0]
        exact ⟨fun x => x, by rw [alterarCanvas_mesmo]⟩
      · rw [h, getElementById_alterarElemento, hD1 alvo c0 hc0]
        by_cases hid : id = alvo
        · rw [if_pos hid]; exact ⟨_, rfl⟩
        · rw [if_neg hid]; exact ⟨fun x => x, by rw [alterarCanvas_mesmo]⟩

theorem renderizacoes_reusa (toCanvas : ToCanvas) (configs : List JSVal) :
    ∀ (m : Mundo) (id : String) (c : Conteudo) (cv : Canvas),
      getElementById m.documento id = some c → querySelectorCanvas c = some cv →
      ∃ f, getElementById (renderizacoes toCanvas configs m).documento id =
        some (alterarCanvas f c) := by
  induction configs with
  | nil =>
    intro m id c cv hget _
    exact ⟨fun x => x, by rw [alterarCanvas_mesmo]; exact hget⟩
  | cons config resto ih =>
    intro m id c cv hget hq
    obtain ⟨f, hf⟩ := gerarQRCode_reusa toCanvas config m id c cv hget hq
    have hq1 : querySelectorCanvas (alterarCanvas f c) = some (f cv) := by
      rw [querySelectorCanvas_alterarCanvas, hq]; rfl
    obtain ⟨g, hg⟩ := ih (gerarQRCode toCanvas config m).2 id (alterarCanvas f c) (f cv) hf hq1
    exact ⟨fun x => g (f x), by
      rw [← alterarCanvas_alterarCanvas]; exact hg⟩

theorem contarCanvas_zero (c : Conteudo) (h : contarCanvas c = 0) :
    querySelectorCanvas c = none := by
  induction c with
  | nil => rfl
  | cons no resto ih =>
    cases no with
    | canvas cv => simp [contarCanvas] at h
    | outro t => exact ih h

theorem gerarQRCode_cria (toCanvas : ToCanvas) (ps : Props) (m : Mundo) (id : String)
    (c : Conteudo) (hget : getElementById m.documento id = some c)
    (hid : paraString (lerCampo ps "elementoId") = .ok id)
    (hq : querySelectorCanvas c = none)
    (hok : (gerarQRCode toCanvas (.obj ps) m).1 = .resolvida (.bool true)) :
    ∃ cv, getElementById (gerarQRCode toCanvas (.obj ps) m).2.documento id =
      some [No.canvas cv] := by
  rcases gerarQRCode_documento toCanvas (.obj ps) m with
    ⟨⟨e, he⟩, _⟩ | ⟨e, v, t, o, hd, hdoc, hres⟩
  · rw [desestruturar_obj] at he
    cases he
  · rw [desestruturar_obj] at hd
    cases hd
    have hcorpo := hres hok
    rw [hdoc]
    rcases corpoTry_documento toCanvas (lerCampo ps "elementoId") (lerCampo ps "valor")
      (lerCampo ps "tipo") (comPadrao (lerCampo ps "opcoes") (.obj [])) m with
      ⟨_, e, he⟩ | ⟨alvo, c0, halvo, hc0, h2⟩
    · rw [hcorpo] at he; cases he
    · rw [hid] at halvo
      cases halvo
      rw [hget] at hc0
      cases hc0
      rcases h2 with ⟨_, e, he⟩ | ⟨tl, h2⟩
      · rw [hcorpo] at he; cases he
      · rw [h2, hq]
        dsimp only
        rw [getElementById_alterarElemento, if_pos rfl, getElementById_alterarElemento,
          if_pos rfl, hget]
        exact ⟨_, rfl⟩

theorem aoRedimensionar_append (a b : List Entrada) (d : Documento) :
    aoRedimensionar (a ++ b) d = aoRedimensionar b (aoRedimensionar a d) := by
  induction a generalizing d with
  | nil => rfl
  | cons entry resto ih =>
    simp only [List.cons_append, aoRedimensionar]
    split
    · exact ih d
    · split
      · exact ih d
      · exact ih _

theorem aoRedimensionar_outros (entries : List Entrada) :
    ∀ (d : Documento) (id : String), id ∉ entries.map Entrada.target →
      getElementById (aoRedimensionar entries d) id = getElementById d id := by
  induction entries with
  | nil => intro d id _; rfl
  | cons entry resto ih =>
    intro d id hid
    simp only [List.map_cons, List.mem_cons, not_or] at hid
    obtain ⟨h1, h2⟩ := hid
    simp only [aoRedimensionar]
    split
    · exact ih d id h2
    · split
      · exact ih d id h2
      · rw [ih _ id h2, getElementById_alterarElemento, if_neg h1]

theorem aoRedimensionar_passo (entry : Entrada) (d : Documento) (c : Conteudo)
    (hget : getElementById d entry.target = some c) :
    (∀ cv, querySelectorCanvas c = some cv →
      aoRedimensionar [entry] d =
        alterarElemento (alterarCanvas (ajustar (min entry.width entry.height))) d
          entry.target) ∧
    (querySelectorCanvas c = none → aoRedimensionar [entry] d = d) := by
  constructor
  · intro cv hq
    simp only [aoRedimensionar, hget, hq]
  · intro hq
    simp only [aoRedimensionar, hget, hq]

/-! ## Formatting arms, debounce, canvas reuse and resizing: the claims -/

/-- C11. For every record whose `nomeRede` and `senha` are strings, `formatarValorQR(record,
'wifi')` is `WIFI:T:` e `;S:` nomeRede `;P:` senha `;;`, where e is the string under
`criptografia` when the record carries one, and `WPA` when the record has no such field. -/
theorem formatarValorQR_wifi (ps : Props) (nomeRede senha : String)
    (hn : buscar ps "nomeRede" = some (.str nomeRede))
    (hs : buscar ps "senha" = some (.str senha)) :
    (∀ e, buscar ps "criptografia" = some (.str e) →
      formatarValorQR (.obj ps) (.str "wifi") =
        .ok (.str ("WIFI:T:" ++ e ++ ";S:" ++ nomeRede ++ ";P:" ++ senha ++ ";;"))) ∧
    (buscar ps "criptografia" = none →
      formatarValorQR (.obj ps) (.str "wifi") =
        .ok (.str ("WIFI:T:" ++ "WPA" ++ ";S:" ++ nomeRede ++ ";P:" ++ senha ++ ";;"))) := by
  rw [formatarValorQR_wifi_obj, lerCampo_str ps _ _ hn, lerCampo_str ps _ _ hs]
  constructor
  · intro e he
    rw [lerCampo_str ps _ _ he]
    rfl
  · intro he
    rw [lerCampo_ausente ps _ he]
    rfl

/-- Witness of C11: a record with `WEP` as encryption, and one with no encryption field. -/
theorem formatarValorQR_wifi_witness :
    formatarValorQR
        (.obj [("nomeRede", .str "casa"), ("senha", .str "123"), ("criptografia", .str "WEP")])
        (.str "wifi") = .ok (.str "WIFI:T:WEP;S:casa;P:123;;") ∧
    formatarValorQR (.obj [("nomeRede", .str "casa"), ("senha", .str "123")]) (.str "wifi") =
      .ok (.str "WIFI:T:WPA;S:casa;P:123;;") :=
  ⟨((formatarValorQR_wifi
      [("nomeRede", .str "casa"), ("senha", .str "123"), ("criptografia", .str "WEP")]
      "casa" "123" rfl rfl).1 "WEP" rfl).trans rfl,
    ((formatarValorQR_wifi [("nomeRede", .str "casa"), ("senha", .str "123")]
      "casa" "123" rfl rfl).2 rfl).trans rfl⟩

/-- C12, as stated: `null` is a value that is not a structured record, and with the types
`wifi` and `contato` it makes the formatter throw a `TypeError` instead of giving the
template with `undefined`; so does a record that misses `senha` and whose `nomeRede` is a
record that cannot be converted to a string. -/
theorem formatarValorQR_null_lanca :
    formatarValorQR .null (.str "wifi") = .error .typeError ∧
    formatarValorQR .null (.str "contato") = .error .typeError ∧
    buscar [("nomeRede", .obj [("toString", .num 1)])] "senha" = none ∧
    formatarValorQR (.obj [("nomeRede", .obj [("toString", .num 1)])]) (.str "wifi") =
      .error .typeError :=
  ⟨rfl, rfl, rfl, rfl⟩

/-- C12, amended: for every value other than `null` that is not a structured record, and for
every record whose expected fields, where present, can each be converted to a string,
`formatarValorQR` with type `wifi` or `contato` raises nothing and returns the usual
template: each present field shows as the string form of its value, and each missing field
shows as the text `undefined` (`WPA` for a missing `criptografia`). The last two parts say
what the text of a field is: the placeholder when the field is missing, the string form of
the value when the field is present and not `undefined`. -/
theorem formatarValorQR_malformado (v : JSVal) (ps : Props) :
    ((∀ qs, v ≠ .obj qs) → v ≠ .null →
      formatarValorQR v (.str "wifi") = .ok (.str "WIFI:T:WPA;S:undefined;P:undefined;;") ∧
      formatarValorQR v (.str "contato") =
        .ok (.str
          "BEGIN:VCARD\nVERSION:3.0\nN:undefined\nTEL:undefined\nEMAIL:undefined\nEND:VCARD")) ∧
    ((∀ k ∈ ["criptografia", "nomeRede", "senha"],
        ∀ x, buscar ps k = some x → ∃ s, paraString x = .ok s) →
      formatarValorQR (.obj ps) (.str "wifi") =
        .ok (.str ("WIFI:T:" ++ textoDoCampo ps "criptografia" "WPA" ++ ";S:" ++
          textoDoCampo ps "nomeRede" "undefined" ++ ";P:" ++
          textoDoCampo ps "senha" "undefined" ++ ";;"))) ∧
    ((∀ k ∈ ["nome", "telefone", "email"],
        ∀ x, buscar ps k = some x → ∃ s, paraString x = .ok s) →
      formatarValorQR (.obj ps) (.str "contato") =
        .ok (.str ("BEGIN:VCARD\nVERSION:3.0\nN:" ++ textoDoCampo ps "nome" "undefined" ++
          "\nTEL:" ++ textoDoCampo ps "telefone" "undefined" ++
          "\nEMAIL:" ++ textoDoCampo ps "email" "undefined" ++ "\nEND:VCARD"))) ∧
    (∀ k padrao, buscar ps k = none → textoDoCampo ps k padrao = padrao) ∧
    (∀ k padrao x s, buscar ps k = some x → x ≠ .undefined → paraString x = .ok s →
      textoDoCampo ps k padrao = s) := by
  refine ⟨?_, ?_, ?_, ?_, ?_⟩
  · intro hobj hnull
    cases v with
    | obj qs => exact absurd rfl (hobj qs)
    | null => exact absurd rfl hnull
    | _ => exact ⟨rfl, rfl⟩
  · intro h
    rw [formatarValorQR_wifi_obj,
      paraString_campo ps "criptografia" "WPA" (h "criptografia" (by simp)),
      paraString_campo_undefined ps "nomeRede" (h "nomeRede" (by simp)),
      paraString_campo_undefined ps "senha" (h "senha" (by simp))]
    rfl
  · intro h
    rw [formatarValorQR_contato_obj,
      paraString_campo_undefined ps "nome" (h "nome" (by simp)),
      paraString_campo_undefined ps "telefone" (h "telefone" (by simp)),
      paraString_campo_undefined ps "email" (h "email" (by simp))]
    rfl
  · intro k padrao hk
    unfold textoDoCampo
    rw [hk]
  · intro k padrao x s hk hx hs
    unfold textoDoCampo
    rw [hk]
    cases x with
    | undefined => exact absurd rfl hx
    | _ => simp only [hs]

/-- Witness of C12 amended: a plain string as `wifi`, the empty record as `contato`, a
record with only `senha` as `wifi`, and a record whose `nomeRede` is the number 5 and whose
`criptografia` is `null`, with no `senha`. -/
theorem formatarValorQR_malformado_witness :
    formatarValorQR (.str "minha rede") (.str "wifi") =
      .ok (.str "WIFI:T:WPA;S:undefined;P:undefined;;") ∧
    formatarValorQR (.obj []) (.str "contato") =
      .ok (.str
        "BEGIN:VCARD\nVERSION:3.0\nN:undefined\nTEL:undefined\nEMAIL:undefined\nEND:VCARD") ∧
    formatarValorQR (.obj [("senha", .str "123")]) (.str "wifi") =
      .ok (.str "WIFI:T:WPA;S:undefined;P:123;;") ∧
    formatarValorQR (.obj [("nomeRede", .num 5), ("criptografia", .null)]) (.str "wifi") =
      .ok (.str "WIFI:T:null;S:5;P:undefined;;") :=
  ⟨((formatarValorQR_malformado (.str "minha rede") []).1
      (fun _ h => JSVal.noConfusion h) (fun h => JSVal.noConfusion h)).1,
    ((formatarValorQR_malformado .undefined []).2.2.1
      (fun _ _ x hx => Option.noConfusion (hx : none = some x))).trans rfl,
    ((formatarValorQR_malformado .undefined [("senha", .str "123")]).2.1
      (fun k hk x hx => by
        simp only [List.mem_cons, List.mem_singleton, List.not_mem_nil, or_false] at hk
        rcases hk with rfl | rfl | rfl
        · exact Option.noConfusion (hx : none = some x)
        · exact Option.noConfusion (hx : none = some x)
        · have e : some (JSVal.str "123") = some x := hx
          cases e
          exact ⟨"123", rfl⟩)).trans rfl,
    ((formatarValorQR_malformado .undefined
        [("nomeRede", .num 5), ("criptografia", .null)]).2.1
      (fun k hk x hx => by
        simp only [List.mem_cons, List.mem_singleton, List.not_mem_nil, or_false] at hk
        rcases hk with rfl | rfl | rfl
        · have e : some JSVal.null = some x := hx
          cases e
          exact ⟨"null", rfl⟩
        · have e : some (JSVal.num 5) = some x := hx
          cases e
          exact ⟨"5", rfl⟩
        · exact Option.noConfusion (hx : none = some x))).trans rfl⟩

/-- C13. The dispatch does not see the case of the type: for every value `v` and every
type string `t`, `formatarValorQR(v, t)` and `formatarValorQR(v, t.toLowerCase())` are the
same result (or the same error); `PIX`, `Pix` and `pix` behave alike, and so do `URL` and
`url`. -/
theorem formatarValorQR_sem_caixa (v : JSVal) (t : String) :
    formatarValorQR v (.str t) = formatarValorQR v (.str (String.mk (t.data.map minuscula))) ∧
    formatarValorQR v (.str "PIX") = formatarValorQR v (.str "pix") ∧
    formatarValorQR v (.str "Pix") = formatarValorQR v (.str "pix") ∧
    formatarValorQR v (.str "URL") = formatarValorQR v (.str "url") :=
  ⟨formatarValorQR_congr v _ _ (toLowerCase_idem t).symm,
    formatarValorQR_congr v _ _ rfl, formatarValorQR_congr v _ _ rfl,
    formatarValorQR_congr v _ _ rfl⟩

/-- C14. For every value `v` and every type string whose lower-cased form is none of `pix`,
`url`, `email`, `tel`, `sms`, `wifi`, `contato`, `formatarValorQR(v, t)` is `String(v)`, the
string representation of `v` with nothing added (and throws exactly when that conversion
throws); for a string `v` it is `v` itself. -/
theorem formatarValorQR_tipo_desconhecido (v : JSVal) (t : String)
    (h : String.mk (t.data.map minuscula) ∉
      ["pix", "url", "email", "tel", "sms", "wifi", "contato"]) :
    formatarValorQR v (.str t) = (paraString v).map JSVal.str ∧
    (∀ s, v = .str s → formatarValorQR v (.str t) = .ok (.str s)) := by
  simp only [List.mem_cons, List.mem_singleton, List.not_mem_nil, or_false, not_or] at h
  obtain ⟨h1, h2, h3, h4, h5, h6, h7⟩ := h
  have hf : formatarValorQR v (.str t) = (paraString v).map JSVal.str := by
    unfold formatarValorQR
    rw [toLowerCase_str]
    simp only [bind, Except.bind, h1, h2, h3, h4, h5, h6, h7, if_false]
    cases paraString v <;> rfl
  refine ⟨hf, ?_⟩
  rintro s rfl
  rw [hf]
  rfl

/-- Witness of C14: the types `texto` and `text`, with a number and with a string. -/
theorem formatarValorQR_tipo_desconhecido_witness :
    formatarValorQR (.num 42) (.str "texto") = .ok (.str "42") ∧
    formatarValorQR (.str "Olá") (.str "text") = .ok (.str "Olá") :=
  ⟨(formatarValorQR_tipo_desconhecido (.num 42) "texto" (by decide)).1.trans rfl,
    (formatarValorQR_tipo_desconhecido (.str "Olá") "text" (by decide)).2 "Olá" rfl⟩

/-- C15. For every wait `w` and every non-empty series of invocations of the debounced
function in which each one follows the previous one by less than `w`, the callback is called
exactly once: at every time from `w` after the last invocation on, the calls made are the
single call at that moment with the arguments of the last invocation, and before that moment
no call has been made. -/
theorem debounceQrCode_ultima_chamada {α : Type} (w : Nat) (burst : List (Nat × α))
    (hne : burst ≠ [])
    (hch : List.Chain' (fun x y => x.1 ≤ y.1 ∧ y.1 < x.1 + w) burst) :
    (∀ fim, (burst.getLast hne).1 + w ≤ fim →
      (avancarAte fim (rajada w burst (debounceQrCode α))).executadas =
        [((burst.getLast hne).1 + w, (burst.getLast hne).2)]) ∧
    (∀ fim, fim < (burst.getLast hne).1 + w →
      (avancarAte fim (rajada w burst (debounceQrCode α))).executadas = []) := by
  cases burst with
  | nil => exact absurd rfl hne
  | cons par resto =>
    obtain ⟨t0, a0⟩ := par
    obtain ⟨n1, id1, hr⟩ := rajada_armada w resto t0 2 1 a0 hch
    have hraj : rajada w ((t0, a0) :: resto) (debounceQrCode α) =
        rajada w resto ⟨t0, 2, [⟨1, t0 + w, a0⟩], some 1, []⟩ := by
      show rajada w resto (executarFuncao w a0 (avancarAte t0 (debounceQrCode α))) = _
      rw [executarFuncao_inicial]
    rw [hraj, hr]
    constructor
    · intro fim hfim
      rw [avancarAte_dispara w _ n1 id1 fim _ hfim]
    · intro fim hfim
      exact avancarAte_espera w _ n1 id1 fim _ hfim

/-- Witness of C15: with a wait of 250 ms, five invocations within 100 ms make one call, at
350 ms, with the arguments of the fifth. -/
theorem debounceQrCode_ultima_chamada_witness :
    (avancarAte 1000 (rajada 250 [(0, 1), (25, 2), (50, 3), (75, 4), (100, 5)]
      (debounceQrCode Nat))).executadas = [(350, 5)] :=
  (debounceQrCode_ultima_chamada 250 [(0, 1), (25, 2), (50, 3), (75, 4), (100, 5)]
    (by decide) (by simp)).1 1000 (by decide)

/-- C16. For a container of the document: if it holds no canvas, a call of `gerarQRCode` on
it that resolves to `true` leaves it with one canvas as its only content; if it holds one
canvas, then after any series of `gerarQRCode` calls (on it or on other containers, failed
or not) it holds the same nodes, only the attributes of that canvas having been written, and
its canvas count is still 1. -/
theorem gerarQRCode_uma_superficie (toCanvas : ToCanvas) (m : Mundo) (id : String)
    (c : Conteudo) (hget : getElementById m.documento id = some c) :
    (contarCanvas c = 0 → ∀ ps, paraString (lerCampo ps "elementoId") = .ok id →
      (gerarQRCode toCanvas (.obj ps) m).1 = .resolvida (.bool true) →
      ∃ cv, getElementById (gerarQRCode toCanvas (.obj ps) m).2.documento id =
        some [No.canvas cv]) ∧
    (contarCanvas c = 1 → ∀ configs, ∃ f,
      getElementById (renderizacoes toCanvas configs m).documento id =
        some (alterarCanvas f c) ∧
      contarCanvas (alterarCanvas f c) = 1) := by
  constructor
  · intro h0 ps hid hok
    exact gerarQRCode_cria toCanvas ps m id c hget hid (contarCanvas_zero c h0) hok
  · intro h1 configs
    obtain ⟨cv, hq⟩ := querySelectorCanvas_de_contar c h1
    obtain ⟨f, hf⟩ := renderizacoes_reusa toCanvas configs m id c cv hget hq
    exact ⟨f, hf, by rw [contarCanvas_alterarCanvas]; exact h1⟩

/-- Witness of C16: a container holding a paragraph gets one canvas and nothing else; a
container holding one canvas still holds one after three calls, the second of which fails. -/
theorem gerarQRCode_uma_superficie_witness :
    (∃ cv, getElementById (gerarQRCode (fun _ _ => .ok ())
        (.obj [("elementoId", .str "qr"), ("valor", .str "abc"), ("tipo", .str "url")])
        ⟨[("qr", [.outro "p"])], [], [], []⟩).2.documento "qr" = some [No.canvas cv]) ∧
    (∃ f, getElementById (renderizacoes (fun _ _ => .ok ())
        [.obj [("elementoId", .str "qr"), ("valor", .str "abc"), ("tipo", .str "url")],
          .obj [("elementoId", .str "qr"), ("valor", .num 5), ("tipo", .str "tel")],
          .obj [("elementoId", .str "qr"), ("valor", .str "x"), ("tipo", .str "PIX")]]
        ⟨[("qr", [.outro "p", .canvas createCanvas])], [], [], []⟩).documento "qr" =
        some (alterarCanvas f [.outro "p", .canvas createCanvas]) ∧
      contarCanvas (alterarCanvas f [.outro "p", .canvas createCanvas]) = 1) :=
  ⟨(gerarQRCode_uma_superficie (fun _ _ => .ok ()) ⟨[("qr", [.outro "p"])], [], [], []⟩
      "qr" [.outro "p"] rfl).1 rfl
      [("elementoId", .str "qr"), ("valor", .str "abc"), ("tipo", .str "url")] rfl rfl,
    (gerarQRCode_uma_superficie (fun _ _ => .ok ())
      ⟨[("qr", [.outro "p", .canvas createCanvas])], [], [], []⟩
      "qr" [.outro "p", .canvas createCanvas] rfl).2 rfl _⟩

/-- C17. The resize handler goes through the entries of a batch in order. In a batch with one
entry per target, for every entry whose target holds a canvas, that canvas ends with its
displayed width and height both set to the smaller of the entry's width and height, in
pixels; for an entry whose target holds no canvas, handling it changes nothing and the
target ends as it was. -/
theorem aoRedimensionar_menor_lado (entries : List Entrada) (d : Documento) (entry : Entrada)
    (c : Conteudo) (hmem : entry ∈ entries) (hnd : (entries.map Entrada.target).Nodup)
    (hget : getElementById d entry.target = some c) :
    (∀ antes seguintes, entries = antes ++ entry :: seguintes →
      aoRedimensionar entries d =
        aoRedimensionar seguintes (aoRedimensionar [entry] (aoRedimensionar antes d))) ∧
    (∀ cv, querySelectorCanvas c = some cv →
      ∃ c1, getElementById (aoRedimensionar entries d) entry.target = some c1 ∧
        querySelectorCanvas c1 = some
          { cv with styleWidth := Nat.repr (min entry.width entry.height) ++ "px",
                    styleHeight := Nat.repr (min entry.width entry.height) ++ "px" }) ∧
    (querySelectorCanvas c = none →
      aoRedimensionar [entry] d = d ∧
      getElementById (aoRedimensionar entries d) entry.target = some c) := by
  obtain ⟨antes, seguintes, hdiv⟩ := List.append_of_mem hmem
  have hforma : aoRedimensionar entries d =
      aoRedimensionar seguintes (aoRedimensionar [entry] (aoRedimensionar antes d)) := by
    rw [hdiv, aoRedimensionar_append]
    exact aoRedimensionar_append [entry] seguintes _
  rw [hdiv, List.map_append, List.map_cons] at hnd
  have hfora_antes : entry.target ∉ antes.map Entrada.target := by
    intro h
    exact (List.nodup_append.mp hnd).2.2 h (List.mem_cons_self _ _)
  have hfora_depois : entry.target ∉ seguintes.map Entrada.target :=
    (List.nodup_cons.mp (List.nodup_append.mp hnd).2.1).1
  have hantes : getElementById (aoRedimensionar antes d) entry.target = some c := by
    rw [aoRedimensionar_outros antes d _ hfora_antes]; exact hget
  obtain ⟨hcom, hsem⟩ := aoRedimensionar_passo entry (aoRedimensionar antes d) c hantes
  refine ⟨?_, ?_, ?_⟩
  · intro a b hab
    rw [hab, aoRedimensionar_append]
    exact aoRedimensionar_append [entry] b _
  · intro cv hq
    refine ⟨alterarCanvas (ajustar (min entry.width entry.height)) c, ?_, ?_⟩
    · rw [hforma, aoRedimensionar_outros seguintes _ _ hfora_depois, hcom cv hq,
        getElementById_alterarElemento, if_pos rfl, hantes]
      rfl
    · rw [querySelectorCanvas_alterarCanvas, hq]
      rfl
  · intro hq
    refine ⟨(aoRedimensionar_passo entry d c hget).2 hq, ?_⟩
    rw [hforma, aoRedimensionar_outros seguintes _ _ hfora_depois, hsem hq]
    exact hantes

/-- Witness of C17: a container resized to 300 by 200 has its canvas displayed at 200 by
200. -/
theorem aoRedimensionar_menor_lado_witness :
    ∃ c1, getElementById
        (aoRedimensionar [⟨"qr", 300, 200⟩, ⟨"outro", 80, 90⟩]
          [("qr", [.canvas ⟨"qrcode-url", "", ""⟩]), ("outro", [])]) "qr" = some c1 ∧
      querySelectorCanvas c1 = some ⟨"qrcode-url", "200px", "200px"⟩ :=
  (aoRedimensionar_menor_lado [⟨"qr", 300, 200⟩, ⟨"outro", 80, 90⟩]
    [("qr", [.canvas ⟨"qrcode-url", "", ""⟩]), ("outro", [])] ⟨"qr", 300, 200⟩
    [.canvas ⟨"qrcode-url", "", ""⟩] (by simp) (by simp) rfl).2.1 ⟨"qrcode-url", "", ""⟩ rfl

/-- C18. Formatting a string as `url` twice is the same as formatting it once, and the
formatted value starts with `http`. -/
theorem formatarValorQR_url_idempotente (v : String) :
    ((formatarValorQR (.str v) (.str "url")).bind fun r => formatarValorQR r (.str "url")) =
      formatarValorQR (.str v) (.str "url") ∧
    ∃ s r, formatarValorQR (.str v) (.str "url") = .ok (.str s) ∧ s = "http" ++ r := by
  have hs : ∀ w : String, startsWith w "http" = true →
      formatarValorQR (.str w) (.str "url") = .ok (.str w) := by
    intro w hw
    rw [formatarValorQR_url_str, if_pos hw]
  by_cases h : startsWith v "http" = true
  · have hv := hs v h
    obtain ⟨r, hr⟩ := (startsWith_iff v "http").mp h
    rw [hv]
    exact ⟨hv, v, r, rfl, hr⟩
  · have hv : formatarValorQR (.str v) (.str "url") = .ok (.str ("https://" ++ v)) := by
      rw [formatarValorQR_url_str, if_neg h]
    have hp : "https://" ++ v = "http" ++ ("s://" ++ v) := by
      rw [← String.append_assoc]; rfl
    have h2 : startsWith ("https://" ++ v) "http" = true :=
      (startsWith_iff _ _).mpr ⟨_, hp⟩
    rw [hv]
    exact ⟨hs _ h2, _, _, rfl, hp⟩

/-- C19. The Wi-Fi payload is injective on records whose `criptografia`, `nomeRede` and
`senha` are strings without `;`: two such records with the same payload have the same three
field values. With `;` allowed it is not: `nomeRede` `a;P:b` with `senha` `c`, and
`nomeRede` `a` with `senha` `b;P:c`, give the same payload. -/
theorem formatarValorQR_wifi_injetiva :
    (∀ (a b : Props) (ca na sa cb nb sb : String),
      buscar a "criptografia" = some (.str ca) → buscar a "nomeRede" = some (.str na) →
      buscar a "senha" = some (.str sa) →
      buscar b "criptografia" = some (.str cb) → buscar b "nomeRede" = some (.str nb) →
      buscar b "senha" = some (.str sb) →
      ';' ∉ ca.data → ';' ∉ na.data → ';' ∉ sa.data →
      ';' ∉ cb.data → ';' ∉ nb.data → ';' ∉ sb.data →
      formatarValorQR (.obj a) (.str "wifi") = formatarValorQR (.obj b) (.str "wifi") →
      ca = cb ∧ na = nb ∧ sa = sb) ∧
    (formatarValorQR (.obj [("nomeRede", .str "a;P:b"), ("senha", .str "c")]) (.str "wifi") =
        formatarValorQR (.obj [("nomeRede", .str "a"), ("senha", .str "b;P:c")]) (.str "wifi") ∧
      formatarValorQR (.obj [("nomeRede", .str "a;P:b"), ("senha", .str "c")]) (.str "wifi") =
        .ok (.str "WIFI:T:WPA;S:a;P:b;P:c;;") ∧
      "a;P:b" ≠ "a" ∧ "c" ≠ "b;P:c") := by
  refine ⟨?_, rfl, rfl, by decide, by decide⟩
  intro a b ca na sa cb nb sb hca hna hsa hcb hnb hsb h1 h2 h3 h4 h5 h6 h
  rw [formatarValorQR_wifi_obj, formatarValorQR_wifi_obj, lerCampo_str a _ _ hca,
    lerCampo_str a _ _ hna, lerCampo_str a _ _ hsa, lerCampo_str b _ _ hcb,
    lerCampo_str b _ _ hnb, lerCampo_str b _ _ hsb] at h
  have hp : "WIFI:T:" ++ ca ++ ";S:" ++ na ++ ";P:" ++ sa ++ ";;" =
      "WIFI:T:" ++ cb ++ ";S:" ++ nb ++ ";P:" ++ sb ++ ";;" := by
    have h0 : (Except.ok (JSVal.str ("WIFI:T:" ++ ca ++ ";S:" ++ na ++ ";P:" ++ sa ++ ";;")) :
        Except JSError JSVal) =
        Except.ok (JSVal.str ("WIFI:T:" ++ cb ++ ";S:" ++ nb ++ ";P:" ++ sb ++ ";;")) := h
    injection h0 with h0
    injection h0
  exact wifi_payload_injetivo ca na sa cb nb sb h1 h2 h3 h4 h5 h6 hp

/-- Witness of C19: two records with the same payload and no `;` in their fields. -/
theorem formatarValorQR_wifi_injetiva_witness :
    "WPA" = "WPA" ∧ "casa" = "casa" ∧ "123" = "123" :=
  formatarValorQR_wifi_injetiva.1
    [("criptografia", .str "WPA"), ("nomeRede", .str "casa"), ("senha", .str "123")]
    [("senha", .str "123"), ("nomeRede", .str "casa"), ("criptografia", .str "WPA")]
    "WPA" "casa" "123" "WPA" "casa" "123" rfl rfl rfl rfl rfl rfl
    (by decide) (by decide) (by decide) (by decide) (by decide) (by decide) rfl

end GerarQrCode
